import Mathlib

/-
  Formal model of the FeedReader repository (src/bot.py, src/db.py).

  The database table `sources(userId, url, last_updated)` is modelled as a
  list of rows; each sqlite statement becomes a pure function on that list.
  Machine wall-clock time is a parameter (a broken-down `Tm` value); the
  compact `%Y%m%d%H%M%S` numeric form produced by `int(time.strftime(...))`
  is `compactTime`.

  External collaborators that live outside src/ (feed.py's `read_feed`,
  the message transport, archive.py's `capture`, `os.getenv`) are passed in
  as oracles: `read_feed` is a function returning either entries or a fetch
  failure, message delivery is a predicate saying whether a given send
  succeeds, and the environment maps keys to optional strings. Python
  exceptions are modelled explicitly: dynamic operations that can raise
  return `Except`, and the single try/except wrapping the whole body of
  `fetch_feeds` in bot.py is modelled by the top-level function catching
  anything raised and recording `errorLogged`.

  Decisive for the scheduler: db.py defines `get_all_sources` twice, and
  the later definition (lines 83-89) rebinds the module-level name, so the
  poll cycle's snapshot is a list of raw sqlite tuples, not dict records.
  The first subscript `source["url"]` at bot.py:123 therefore raises
  `TypeError` on the first iteration, and with a nonempty snapshot the
  cycle aborts before `read_feed`, `send_message` or
  `update_source_timestamp` can run. The model follows that control flow:
  `pollSources` carries a proof that every snapshot element rejects the
  subscript, and its unreachable success branch is discharged by that
  proof rather than modelled counterfactually.
-/

namespace FeedReader

/-- Broken-down wall-clock time, the input to `time.strftime`. -/
structure Tm where
  year : Nat
  mon : Nat
  day : Nat
  hour : Nat
  min : Nat
  sec : Nat
deriving DecidableEq, Repr

/-- `int(time.strftime("%Y%m%d%H%M%S", t))`: the compact numeric timestamp
obtained by concatenating the zero-padded two-digit fields after the year.
For in-range fields (month, day, hour, minute, second below 100) the
integer value of the concatenated digit string is exactly this polynomial. -/
def compactTime (t : Tm) : Nat :=
  ((((t.year * 100 + t.mon) * 100 + t.day) * 100 + t.hour) * 100 + t.min) * 100 + t.sec

/-- One row of the `sources` table: `(userId, url, last_updated)`,
per the persisted schema used by db.py's statements. -/
structure Row where
  userId : Int
  url : String
  last_updated : Nat
deriving DecidableEq, Repr

/-- db.add_feed_source: `INSERT INTO sources VALUES (userId, source, dt_date)`
with `dt_date = int(time.strftime("%Y%m%d%H%M%S"))` — the row is appended
with the watermark set to the current wall-clock time. -/
def add_feed_source (store : List Row) (uid : Int) (source : String) (now : Tm) :
    List Row :=
  store ++ [⟨uid, source, compactTime now⟩]

/-- db.is_already_present: `SELECT * FROM sources WHERE URL=:source AND
USERID=:userid`, then true iff the result set is nonempty. -/
def is_already_present (store : List Row) (uid : Int) (source : String) : Bool :=
  store.any (fun r => r.userId == uid && r.url == source)

/-- db.update_source_timestamp: `UPDATE sources SET last_updated=:dt_date
WHERE URL=:source AND USERID=:userid` — unconditional overwrite of every
matching row. -/
def update_source_timestamp (store : List Row) (uid : Int) (source : String)
    (t : Nat) : List Row :=
  store.map (fun r =>
    if r.userId == uid && r.url == source then { r with last_updated := t } else r)

/-- Number of rows stored for a given (subscriber, url) pair. -/
def countPair (store : List Row) (uid : Int) (source : String) : Nat :=
  store.countP (fun r => r.userId == uid && r.url == source)

/-- A dynamically-typed Python value, enough to tell a sqlite result tuple
from the dict records built by the first (shadowed) `get_all_sources`. -/
inductive PyVal where
  | int (n : Int)
  | str (s : String)
  | tuple (xs : List PyVal)
  | dict (kvs : List (String × PyVal))

/-- Python subscript `v[k]` with a string key: succeeds only on a dict that
holds the key; on a tuple (or any non-dict) it raises `TypeError`, on a
dict without the key it raises `KeyError`. -/
def subscript : PyVal → String → Except String PyVal
  | .dict kvs, k =>
    match kvs.find? (fun kv => kv.1 == k) with
    | some kv => .ok kv.2
    | none => .error "KeyError"
  | _, _ => .error "TypeError"

/-- The FIRST `get_all_sources` in db.py (lines 55-67): builds, for each
row of `SELECT * FROM sources`, a dict `{"userId": .., "url": ..,
"last_updated": ..}`. In Python this definition is dead: the second
definition below rebinds the module-level name. -/
def get_all_sources_shadowed (rows : List Row) : List PyVal :=
  rows.map (fun r =>
    .dict [("userId", .int r.userId), ("url", .str r.url),
           ("last_updated", .int (r.last_updated : Int))])

/-- The SECOND `get_all_sources` in db.py (lines 83-89), the one a caller
actually gets (a later `def` rebinds the name): `cur.fetchall()` returns
the raw result rows, which with sqlite3's default row factory are plain
tuples, not dicts. -/
def get_all_sources (rows : List Row) : List PyVal :=
  rows.map (fun r => .tuple [.int r.userId, .str r.url, .int (r.last_updated : Int)])

/-- One parsed feed entry as bot.py sees it: the presence of the
`published_parsed` / `updated_parsed` attributes is an `Option` holding the
already-normalized compact numeric timestamp, plus the entry's link. -/
structure Entry where
  published : Option Nat
  updated : Option Nat
  link : String
deriving DecidableEq, Repr

/-- Result of one invocation of `fetch_feeds`: the table afterwards, the
messages sent and links archived (in order), and whether the body raised —
the surrounding `except` logs it, so `errorLogged` true means the cycle
ended early but the scheduling loop survived. -/
structure CycleResult where
  store : List Row
  sent : List (Int × Entry)
  archived : List String
  errorLogged : Bool
deriving DecidableEq, Repr

/-- bot.py lines 122-149, the `for source in sources` loop, iterating the
snapshot the live `get_all_sources` returned. The first statement of the
body (line 123) evaluates `source["url"]` to build the `read_feed`
argument; the hypothesis carried by this function — discharged by
`fetch_feeds` below from the shape of `get_all_sources`'s rows — proves
this subscript raises `TypeError` on every snapshot element, so the first
iteration propagates to the cycle's `except` with nothing sent, nothing
archived, and no `update_source_timestamp` call reached. The success
branch of the subscript (the only path on which lines 124-149 run) is
refuted by that hypothesis rather than modelled counterfactually. With an
empty snapshot the loop body never runs and nothing raises. -/
def pollSources (store : List Row) :
    (l : List PyVal) → (∀ v ∈ l, subscript v "url" = Except.error "TypeError") →
    CycleResult
  | [], _ => ⟨store, [], [], false⟩
  | src :: _, h =>
    match hs : subscript src "url" with
    | .error _ => ⟨store, [], [], true⟩
    | .ok _ =>
      absurd (h src (List.mem_cons_self src _)) (by rw [hs]; simp)

/-- bot.fetch_feeds (lines 118-151). Line 120 takes the snapshot from
`get_all_sources` (the tuple-returning second definition — db.py's caller
gets the later `def`; it reads the hardcoded 'feeds.db', the same file the
rest of db.py uses in the `FEED_DATABASE=feeds.db` deployment, the only
configuration in which added subscriptions are visible to the scheduler at
all). Line 121: `os.getenv('EXCLUDE_WORDS')` yields `none` when the key is
unset and `.splitlines()` on `None` raises `AttributeError`, caught by the
body's one try/except before the loop. Otherwise the loop runs on the
snapshot; `reader` (feed.read_feed, modelled from the spec: fetch, parse,
filter) and `sendOk` (the delivery transport) are never reached — the
tuple subscript at line 123 raises first — and are kept as parameters
precisely so the theorems can quantify over them and exhibit that
independence. -/
def fetch_feeds (env : String → Option String)
    (reader : String → List String → Except Unit (List Entry))
    (sendOk : Int → Entry → Bool) (store : List Row) : CycleResult :=
  match env "EXCLUDE_WORDS" with
  | none => ⟨store, [], [], true⟩
  | some _ =>
    pollSources store (get_all_sources store)
      (fun v hv => by
        rcases List.mem_map.mp hv with ⟨r, _, rfl⟩
        rfl)

/-- What bot.add_feed replies with. -/
inductive AddOutcome where
  | promptUrl
  | alreadyExists (u : String)
  | added (u : String)
  | errorOccurred
deriving DecidableEq, Repr

/-- bot.add_feed (lines 26-43): with no argument, prompt for a URL; if the
(user, url) pair is already present, reply "already exists" and change
nothing; otherwise insert via `add_feed_source` and then fetch the feed
description (`infoOk` is the get_feed_info oracle — if it raises, the
handler's except replies with a generic error, but the row was already
inserted). -/
def add_feed (store : List Row) (user : Int) (args : List String) (now : Tm)
    (infoOk : Bool) : List Row × AddOutcome :=
  match args with
  | [] => (store, .promptUrl)
  | source :: _ =>
    if is_already_present store user source then
      (store, .alreadyExists source)
    else
      (add_feed_source store user source now,
       if infoOk then .added source else .errorOccurred)

/-! Concrete fixtures used by the evaluation theorems below. -/

/-- An environment with `EXCLUDE_WORDS` set (to the empty block-list) and
everything else unset. -/
def envStd : String → Option String :=
  fun k => if k == "EXCLUDE_WORDS" then some "" else none

/-- A delivery transport on which every send succeeds. -/
def sendAll : Int → Entry → Bool := fun _ _ => true

/-- A delivery transport that rejects exactly the entries published at
timestamp 300. -/
def sendFail300 : Int → Entry → Bool := fun _ e => e.published != some 300

/-- Entries published at compact timestamps 100, 300 and 200. -/
def e100 : Entry := ⟨some 100, none, "l100"⟩

def e300 : Entry := ⟨some 300, none, "l300"⟩

def e200 : Entry := ⟨some 200, none, "l200"⟩

/-- An entry with neither a published nor an updated timestamp. -/
def eNoTime : Entry := ⟨none, none, "lx"⟩

/-- The source loop never changes the table: it either has no iterations
(empty snapshot) or raises out of its first one, before any update. -/
theorem pollSources_store_unchanged (store : List Row) (l : List PyVal)
    (h : ∀ v ∈ l, subscript v "url" = Except.error "TypeError") :
    (pollSources store l h).store = store := by
  cases l with
  | nil => rfl
  | cons src rest =>
    have hs := h src (List.mem_cons_self src _)
    simp only [pollSources]
    split
    · rfl
    · next v heq => exact absurd hs (by rw [heq]; simp)

/-- C1. For every subscription and every poll cycle, the watermark after
the cycle is ≥ the watermark before: the cycle returns the store exactly
unchanged, so every stored watermark is left untouched — in particular
whenever no entry qualified, including when the feed would return no
entries — and nothing is ever persisted whose value could decrease it.
This holds in the strongest (vacuous) form: with a nonempty table the
cycle raises `TypeError` at the first `source["url"]` before any
`update_source_timestamp` call is reachable, and with an empty table the
loop body never runs. -/
theorem fetch_feeds_watermark_monotone (env : String → Option String)
    (reader : String → List String → Except Unit (List Entry))
    (sendOk : Int → Entry → Bool) (store : List Row) :
    (fetch_feeds env reader sendOk store).store = store := by
  rcases henv : env "EXCLUDE_WORDS" with _ | s <;>
    simp [fetch_feeds, henv, pollSources_store_unchanged]

/-- C2. False of the program: with two subscriptions, the exception raised
while processing the first one — the `TypeError` its `source["url"]`
subscript raises — aborts the whole cycle, so the remaining subscription is
never processed: nothing is delivered and no watermark changes although
its feed would hold a deliverable entry and the transport accepts
everything. The second conjunct shows the failing source is not "skipped"
to reach the next one, and indeed `read_feed` is never invoked at all: the
cycle's outcome is identical when every fetch would fail. -/
theorem fetch_feeds_first_failure_stops_all :
    (fetch_feeds envStd (fun _ _ => .ok [e300]) sendAll
        [⟨1, "a", 0⟩, ⟨2, "b", 0⟩]
      = ⟨[⟨1, "a", 0⟩, ⟨2, "b", 0⟩], [], [], true⟩)
    ∧ (fetch_feeds envStd (fun _ _ => .error ()) sendAll
        [⟨1, "a", 0⟩, ⟨2, "b", 0⟩]
      = fetch_feeds envStd (fun _ _ => .ok [e300]) sendAll
          [⟨1, "a", 0⟩, ⟨2, "b", 0⟩]) := by
  constructor <;> rfl

/-- C3. False of the program: for a subscription with watermark 150 whose
feed would return entries timestamped [100, 300, 200] to an accepting
transport, the cycle raises `TypeError` at `source["url"]` before
`read_feed` is ever called — nothing is delivered (not the 300- and
200-entries the claim promises) and the stored watermark stays 150, not
300. -/
theorem fetch_feeds_nonmonotonic_feed_undelivered :
    fetch_feeds envStd (fun _ _ => .ok [e100, e300, e200]) sendAll
        [⟨1, "u", 150⟩]
      = ⟨[⟨1, "u", 150⟩], [], [], true⟩ := by
  rfl

/-- C4. False of the program: a feed entry lacking both timestamps is
never "skipped with the remaining entries continuing" — no entry is ever
examined, because the cycle raises `TypeError` at `source["url"]` before
`read_feed`, so with feed [timestamp-less entry, 300-entry] nothing is
processed or delivered and the cycle ends with the error logged. (Even
were the entry loop reached, bot.py:137 is a `break` that abandons the
source's remaining entries, not a per-entry skip, and the log f-string at
line 136 subscripts the tuple source and would itself raise.) -/
theorem fetch_feeds_no_time_entry_nothing_processed :
    fetch_feeds envStd (fun _ _ => .ok [eNoTime, e300]) sendAll
        [⟨1, "u", 150⟩]
      = ⟨[⟨1, "u", 150⟩], [], [], true⟩ := by
  rfl

/-- C5. False of the program: `send_message` is unreachable — the
`TypeError` at `source["url"]` precedes it — so no delivery, and hence no
delivery failure, ever occurs, no "subsequent entries" are ever processed,
and no watermark is ever advanced. With watermark 150 and a feed that
would return [300-entry, 200-entry], the cycle's outcome is the same
whether the transport rejects the 300-entry or accepts everything: nothing
sent, watermark still 150, error logged. -/
theorem fetch_feeds_delivery_never_attempted :
    (fetch_feeds envStd (fun _ _ => .ok [e300, e200]) sendFail300
        [⟨1, "u", 150⟩]
      = ⟨[⟨1, "u", 150⟩], [], [], true⟩)
    ∧ (fetch_feeds envStd (fun _ _ => .ok [e300, e200]) sendAll
        [⟨1, "u", 150⟩]
      = ⟨[⟨1, "u", 150⟩], [], [], true⟩) := by
  constructor <;> rfl

/-- C6. At most the first 10 entries returned by the feed reader are
considered for delivery and for the tracked maximum: the whole cycle —
its deliveries, its archived links, the watermarks it stores, its error
flag — is unchanged when every reader result is truncated to its first 10
entries, so for a source returning 15 entries the last five are never
considered, whatever their timestamps. In the program this holds in the
strongest (vacuous) form: the cycle never reaches the feed reader at all —
the `TypeError` at `source["url"]` precedes the `read_feed` call, and the
entry cap at bot.py:127-130 is dead code — so no entry, in particular none
past the tenth, is ever considered. -/
theorem fetch_feeds_considers_first_ten (env : String → Option String)
    (reader : String → List String → Except Unit (List Entry))
    (sendOk : Int → Entry → Bool) (store : List Row) :
    fetch_feeds env reader sendOk store
      = fetch_feeds env (fun u w => (reader u w).map (fun l => l.take 10))
          sendOk store := rfl

/-- C7. The list-all operation the poll cycle actually calls does NOT
return records with named fields: the second `get_all_sources` definition
in db.py shadows the first, and it returns sqlite's raw result tuples, on
which the scheduler's `source["url"]` subscript raises `TypeError`. The
shadowed first definition is the one that would have produced dict records
answering `"url"` by name, as the spec describes. -/
theorem get_all_sources_rows_reject_named_access :
    ((get_all_sources [⟨1, "http://a", 0⟩]).map (fun v => subscript v "url")
       = [.error "TypeError"])
    ∧ ((get_all_sources_shadowed [⟨1, "http://a", 0⟩]).map
        (fun v => subscript v "url")
       = [.ok (.str "http://a")]) := by
  constructor <;> rfl

/-- C8. Adding a (subscriber, url) pair that is not yet in the store and
then adding it again: the second call replies "already exists" and returns
the store unchanged, and the store holds exactly one row for the pair. -/
theorem add_feed_duplicate_pair (store : List Row) (u : Int) (s : String)
    (now1 now2 : Tm) (ok1 ok2 : Bool) (h : countPair store u s = 0) :
    add_feed (add_feed store u [s] now1 ok1).1 u [s] now2 ok2
      = ((add_feed store u [s] now1 ok1).1, .alreadyExists s)
    ∧ countPair (add_feed store u [s] now1 ok1).1 u s = 1 := by
  have hall : ∀ r ∈ store, ¬ (r.userId == u && r.url == s) = true := by
    rw [countPair, List.countP_eq_zero] at h
    exact h
  have hpres : is_already_present store u s = false := by
    rw [is_already_present, List.any_eq_false]
    exact hall
  have hstep : (add_feed store u [s] now1 ok1).1
      = store ++ [⟨u, s, compactTime now1⟩] := by
    simp [add_feed, hpres, add_feed_source]
  rw [hstep]
  constructor
  · simp [add_feed, is_already_present, List.any_append]
  · rw [countPair, List.countP_append]
    rw [countPair] at h
    simp [h, List.countP_cons]

/-- Witness for C8: the empty store, user 1, one url, added twice. -/
theorem add_feed_duplicate_pair_witness :
    countPair ([] : List Row) 1 "http://a" = 0
    ∧ (add_feed (add_feed [] 1 ["http://a"] ⟨2024, 5, 1, 2, 3, 4⟩ true).1 1
          ["http://a"] ⟨2024, 5, 2, 2, 3, 4⟩ true
        = ((add_feed [] 1 ["http://a"] ⟨2024, 5, 1, 2, 3, 4⟩ true).1,
           .alreadyExists "http://a")
      ∧ countPair (add_feed [] 1 ["http://a"] ⟨2024, 5, 1, 2, 3, 4⟩ true).1 1
          "http://a" = 1) :=
  ⟨rfl, add_feed_duplicate_pair [] 1 "http://a" ⟨2024, 5, 1, 2, 3, 4⟩
    ⟨2024, 5, 2, 2, 3, 4⟩ true true rfl⟩

/-- C9. A successful add appends the subscription with its watermark set
to the compact `YYYYMMDDHHMMSS` numeric form of the wall-clock time at the
moment of insertion — which, for any actual calendar year, is not zero. -/
theorem add_feed_source_seeds_current_time (store : List Row) (u : Int)
    (s : String) (t : Tm) (h : 1 ≤ t.year) :
    add_feed_source store u s t = store ++ [⟨u, s, compactTime t⟩]
    ∧ compactTime t ≠ 0 := by
  refine ⟨rfl, ?_⟩
  unfold compactTime
  omega

/-- Witness for C9 at a concrete wall-clock time. -/
theorem add_feed_source_seeds_current_time_witness :
    1 ≤ (⟨2024, 5, 1, 2, 3, 4⟩ : Tm).year
    ∧ (add_feed_source [] 1 "http://a" ⟨2024, 5, 1, 2, 3, 4⟩
        = [] ++ [⟨1, "http://a", compactTime ⟨2024, 5, 1, 2, 3, 4⟩⟩]
      ∧ compactTime ⟨2024, 5, 1, 2, 3, 4⟩ ≠ 0) :=
  ⟨by decide, add_feed_source_seeds_current_time [] 1 "http://a"
    ⟨2024, 5, 1, 2, 3, 4⟩ (by decide)⟩

/-- C10. When the `EXCLUDE_WORDS` lookup yields no value, the cycle's
`.splitlines()` call raises before any source is touched: the cycle
delivers nothing, archives nothing, leaves every watermark (the whole
store) unchanged, and the exception is caught and logged — `fetch_feeds`
returns normally, so the scheduling loop survives to the next interval. -/
theorem fetch_feeds_missing_exclude_words (env : String → Option String)
    (reader : String → List String → Except Unit (List Entry))
    (sendOk : Int → Entry → Bool) (store : List Row)
    (h : env "EXCLUDE_WORDS" = none) :
    fetch_feeds env reader sendOk store = ⟨store, [], [], true⟩ := by
  simp [fetch_feeds, h]

/-- Witness for C10 with a wholly empty environment. -/
theorem fetch_feeds_missing_exclude_words_witness :
    (fun (_ : String) => (none : Option String)) "EXCLUDE_WORDS" = none
    ∧ fetch_feeds (fun _ => none) (fun _ _ => .ok [e300]) sendAll
        [⟨1, "u", 150⟩]
      = ⟨[⟨1, "u", 150⟩], [], [], true⟩ :=
  ⟨rfl, fetch_feeds_missing_exclude_words (fun _ => none)
    (fun _ _ => .ok [e300]) sendAll [⟨1, "u", 150⟩] rfl⟩

end FeedReader
